import Mathlib

/-!
Shallow embedding of the PhotoSquare advanced filter engine
(`AdvancedFilterProcessor` in `src/utils`), over exact rational arithmetic.

A pixel buffer (JS `Uint8ClampedArray` of RGBA bytes, row-major) is modelled
as an `Image`: a width, a height and a function from coordinates to `Pixel`s
whose channels are natural numbers.  Every per-pixel loop of the source reads
only the bytes it overwrites in the same iteration (the one neighbourhood
stage, `applyClarify`, reads from a frozen copy `tempData`), so the in-place
loops are exactly per-pixel maps and the embedding represents each stage as a
pure function on `Image`s.

JavaScript numbers are embedded as rationals.  The two irrational library
calls `Math.sqrt` and `Math.pow` are abstracted into a `JsMath` record of
uninterpreted rational functions; theorems that depend on them assume only
the properties actually used (nonnegativity, monotonicity, squaring at
exponent 2), all satisfiable by concrete rational functions.

A store into a `Uint8ClampedArray` clamps to [0,255] and rounds to the
nearest integer with ties to even (ECMAScript `ToUint8Clamp`); this is
`toUint8Clamp` below.
-/

namespace PhotoSquare

/-- One RGBA pixel as stored in a `Uint8ClampedArray` (each channel a byte). -/
structure Pixel where
  r : ℕ
  g : ℕ
  b : ℕ
  a : ℕ
deriving DecidableEq, Repr

/-- A pixel buffer with its externally supplied dimensions.  `px x y` is the
pixel at column `x`, row `y` (flat index `(y * width + x) * 4` in the source). -/
structure Image where
  width : ℕ
  height : ℕ
  px : ℕ → ℕ → Pixel

/-- All channels of every pixel are bytes (always true of a real
`Uint8ClampedArray`; stated explicitly because `Image.px` is total). -/
def ValidImage (img : Image) : Prop :=
  ∀ x y : ℕ, (img.px x y).r ≤ 255 ∧ (img.px x y).g ≤ 255 ∧ (img.px x y).b ≤ 255

/-- All three colour channels of one pixel lie in [0,255] (the lower bound
is inherent in the `ℕ` channel type). -/
def InRange (p : Pixel) : Prop := p.r ≤ 255 ∧ p.g ≤ 255 ∧ p.b ≤ 255

/-- The `ImageFilters` record from `src/types` (fields in source order). -/
structure ImageFilters where
  grayscale : ℚ
  sepia : ℚ
  brightness : ℚ
  contrast : ℚ
  saturation : ℚ
  hue : ℚ
  blur : ℚ
  sharpen : ℚ
  vignette : ℚ
  temperature : ℚ
  vintage : ℚ
  drama : ℚ
  clarify : ℚ
  hdr : ℚ
  lomo : ℚ
  cross : ℚ
  pinhole : ℚ
  kodachrome : ℚ
  technicolor : ℚ
  polaroid : ℚ
deriving DecidableEq, Repr

/-- The `defaultFilters` constant from `src/types`: every field neutral. -/
def defaultFilters : ImageFilters :=
  ⟨0, 0, 100, 100, 100, 0, 0, 0, 0, 0, 0, 0, 0, 0, 0, 0, 0, 0, 0, 0⟩

/-- The two `Math` library functions the engine calls on non-trivial
arguments, as uninterpreted rational functions. -/
structure JsMath where
  sqrt : ℚ → ℚ
  pow : ℚ → ℚ → ℚ

/-- Truncation toward zero, as used by the JavaScript `%` operator. -/
def truncQ (q : ℚ) : ℤ := if 0 ≤ q then ⌊q⌋ else ⌈q⌉

/-- The JavaScript remainder operator `a % b` (sign follows the dividend). -/
def jsRem (a b : ℚ) : ℚ := a - b * (truncQ (a / b) : ℚ)

/-- ECMAScript `ToUint8Clamp`: clamp to [0,255], round to nearest, ties to
even.  Every store into the pixel buffer goes through this conversion. -/
def toUint8Clamp (q : ℚ) : ℕ :=
  if q ≤ 0 then 0
  else if 255 ≤ q then 255
  else
    (if q - (⌊q⌋ : ℚ) < 1 / 2 then ⌊q⌋
     else if 1 / 2 < q - (⌊q⌋ : ℚ) then ⌊q⌋ + 1
     else if ⌊q⌋ % 2 = 0 then ⌊q⌋ else ⌊q⌋ + 1).toNat

/-- `distance / maxDistance`: the radial distance of pixel `(x, y)` from the
image center, normalized by the corner-to-center distance, exactly as the
spatial stages compute it with `Math.sqrt` (centerX = width/2,
centerY = height/2). -/
def distFrac (mo : JsMath) (w h x y : ℕ) : ℚ :=
  mo.sqrt (((x : ℚ) - w / 2) ^ 2 + ((y : ℚ) - h / 2) ^ 2) /
    mo.sqrt (((w : ℚ) / 2) ^ 2 + ((h : ℚ) / 2) ^ 2)

/-- The `darkening` factor of `applyPinhole`:
`Math.pow(distance / maxDistance, 2) * intensity`. -/
def pinholeDarkening (mo : JsMath) (w h x y : ℕ) (intensity : ℚ) : ℚ :=
  mo.pow (distFrac mo w h x y) 2 * intensity

/-- The `vignette` factor of `applyVignetteEffect`:
`1 - (distance / maxDistance) * intensity`. -/
def vignetteFactor (mo : JsMath) (w h x y : ℕ) (intensity : ℚ) : ℚ :=
  1 - distFrac mo w h x y * intensity

/-- `hueShift([r, g, b], angle)`: RGB→HSV→RGB round trip with the hue moved
by `angle` degrees, transcribed line by line from the source (including the
final `* 255` rescale of each returned channel). -/
def hueShift (rgb : ℚ × ℚ × ℚ) (angle : ℚ) : ℚ × ℚ × ℚ :=
  let r := rgb.1
  let g := rgb.2.1
  let b := rgb.2.2
  let mx := max r (max g b)
  let mn := min r (min g b)
  let delta := mx - mn
  if delta = 0 then (r, g, b)
  else
    let saturation := if mx = 0 then 0 else delta / mx
    let value := mx
    let hue0 : ℚ :=
      if mx = r then jsRem ((g - b) / delta) 6
      else if mx = g then (b - r) / delta + 2
      else (r - g) / delta + 4
    let hue1 := jsRem (hue0 * 60 + angle) 360
    let hue2 := if hue1 < 0 then hue1 + 360 else hue1
    let c := value * saturation
    let xx := c * (1 - |jsRem (hue2 / 60) 2 - 1|)
    let m := value - c
    let sel : ℚ × ℚ × ℚ :=
      if hue2 < 60 then (c, xx, 0)
      else if hue2 < 120 then (xx, c, 0)
      else if hue2 < 180 then (0, c, xx)
      else if hue2 < 240 then (0, xx, c)
      else if hue2 < 300 then (xx, 0, c)
      else (c, 0, xx)
    ((sel.1 + m) * 255, (sel.2.1 + m) * 255, (sel.2.2 + m) * 255)

/-- The per-pixel body of `applyBasicFilters` (one iteration of its loop):
the seven gated tonal adjustments on live rational channel values, then the
single clamped store of the three colour channels. -/
def basicPixel (f : ImageFilters) (p : Pixel) : Pixel :=
  let t0 : ℚ × ℚ × ℚ := ((p.r : ℚ), (p.g : ℚ), (p.b : ℚ))
  let t1 :=
    if f.brightness ≠ 100 then
      (t0.1 * (f.brightness / 100), t0.2.1 * (f.brightness / 100),
        t0.2.2 * (f.brightness / 100))
    else t0
  let t2 :=
    if f.contrast ≠ 100 then
      let factor := 259 * (f.contrast + 255) / (255 * (259 - f.contrast))
      (factor * (t1.1 - 128) + 128, factor * (t1.2.1 - 128) + 128,
        factor * (t1.2.2 - 128) + 128)
    else t1
  let t3 :=
    if f.saturation ≠ 100 then
      let gray := 0.299 * t2.1 + 0.587 * t2.2.1 + 0.114 * t2.2.2
      let factor := f.saturation / 100
      (gray + factor * (t2.1 - gray), gray + factor * (t2.2.1 - gray),
        gray + factor * (t2.2.2 - gray))
    else t2
  let t4 :=
    if f.temperature ≠ 0 then
      (t3.1 + f.temperature / 100 * 30, t3.2.1, t3.2.2 - f.temperature / 100 * 30)
    else t3
  let t5 := if f.hue ≠ 0 then hueShift t4 f.hue else t4
  let t6 :=
    if f.grayscale > 0 then
      let gray := 0.299 * t5.1 + 0.587 * t5.2.1 + 0.114 * t5.2.2
      let factor := f.grayscale / 100
      (t5.1 * (1 - factor) + gray * factor, t5.2.1 * (1 - factor) + gray * factor,
        t5.2.2 * (1 - factor) + gray * factor)
    else t5
  let t7 :=
    if f.sepia > 0 then
      let factor := f.sepia / 100
      let tr := 0.393 * t6.1 + 0.769 * t6.2.1 + 0.189 * t6.2.2
      let tg := 0.349 * t6.1 + 0.686 * t6.2.1 + 0.168 * t6.2.2
      let tb := 0.272 * t6.1 + 0.534 * t6.2.1 + 0.131 * t6.2.2
      (t6.1 * (1 - factor) + tr * factor, t6.2.1 * (1 - factor) + tg * factor,
        t6.2.2 * (1 - factor) + tb * factor)
    else t6
  Pixel.mk (toUint8Clamp (max 0 (min 255 t7.1)))
    (toUint8Clamp (max 0 (min 255 t7.2.1)))
    (toUint8Clamp (max 0 (min 255 t7.2.2))) p.a

/-- `applyBasicFilters`: the basic tonal stage, `basicPixel` at every pixel. -/
def applyBasicFilters (f : ImageFilters) (img : Image) : Image :=
  Image.mk img.width img.height (fun x y => basicPixel f (img.px x y))

/-- `applyVintage`. -/
def applyVintage (intensity : ℚ) (img : Image) : Image :=
  Image.mk img.width img.height (fun x y =>
    let p := img.px x y
    let r : ℚ := p.r
    let g : ℚ := p.g
    let b : ℚ := p.b
    let newR := r * (1 + 0.3 * intensity) - g * 0.1 * intensity
    let newG := g * (1 + 0.1 * intensity) - b * 0.05 * intensity
    let newB := b * (1 - 0.2 * intensity) + r * 0.1 * intensity
    Pixel.mk (toUint8Clamp (max 0 (min 255 newR)))
      (toUint8Clamp (max 0 (min 255 newG)))
      (toUint8Clamp (max 0 (min 255 newB))) p.a)

/-- `applyDrama`. -/
def applyDrama (intensity : ℚ) (img : Image) : Image :=
  Image.mk img.width img.height (fun x y =>
    let p := img.px x y
    let factor := 1 + intensity * 0.5
    let contrast := 1 + intensity * 0.3
    Pixel.mk (toUint8Clamp (max 0 (min 255 ((((p.r : ℚ) - 128) * contrast + 128) * factor))))
      (toUint8Clamp (max 0 (min 255 ((((p.g : ℚ) - 128) * contrast + 128) * factor))))
      (toUint8Clamp (max 0 (min 255 ((((p.b : ℚ) - 128) * contrast + 128) * factor)))) p.a)

/-- `applyLomo` (spatial: radial vignette plus colour shift). -/
def applyLomo (mo : JsMath) (intensity : ℚ) (img : Image) : Image :=
  Image.mk img.width img.height (fun x y =>
    let p := img.px x y
    let vignette := 1 - distFrac mo img.width img.height x y * intensity * 0.7
    Pixel.mk (toUint8Clamp (max 0 (min 255 ((p.r : ℚ) * (1 + intensity * 0.2) * vignette))))
      (toUint8Clamp (max 0 (min 255 ((p.g : ℚ) * (1 - intensity * 0.1) * vignette))))
      (toUint8Clamp (max 0 (min 255 ((p.b : ℚ) * (1 - intensity * 0.3) * vignette)))) p.a)

/-- `applyCrossProcess`. -/
def applyCrossProcess (intensity : ℚ) (img : Image) : Image :=
  Image.mk img.width img.height (fun x y =>
    let p := img.px x y
    let r : ℚ := p.r
    let g : ℚ := p.g
    let b : ℚ := p.b
    let newR := r * (1 + intensity * 0.4) - g * intensity * 0.2
    let newG := g * (1 - intensity * 0.1) + r * intensity * 0.1
    let newB := b * (1 + intensity * 0.3) - r * intensity * 0.1
    Pixel.mk (toUint8Clamp (max 0 (min 255 newR)))
      (toUint8Clamp (max 0 (min 255 newG)))
      (toUint8Clamp (max 0 (min 255 newB))) p.a)

/-- `applyPinhole` (spatial: radial darkening; the source floors at 0 with
`Math.max` but has no explicit `Math.min`, the store itself clamps at 255). -/
def applyPinhole (mo : JsMath) (intensity : ℚ) (img : Image) : Image :=
  Image.mk img.width img.height (fun x y =>
    let p := img.px x y
    let darkening := pinholeDarkening mo img.width img.height x y intensity
    Pixel.mk (toUint8Clamp (max 0 ((p.r : ℚ) * (1 - darkening))))
      (toUint8Clamp (max 0 ((p.g : ℚ) * (1 - darkening))))
      (toUint8Clamp (max 0 ((p.b : ℚ) * (1 - darkening)))) p.a)

/-- `applyKodachrome`. -/
def applyKodachrome (intensity : ℚ) (img : Image) : Image :=
  Image.mk img.width img.height (fun x y =>
    let p := img.px x y
    let r : ℚ := p.r
    let g : ℚ := p.g
    let b : ℚ := p.b
    let luminance := 0.299 * r + 0.587 * g + 0.114 * b
    let factor := luminance / 255
    Pixel.mk (toUint8Clamp (max 0 (min 255 (r + intensity * 20 * factor))))
      (toUint8Clamp (max 0 (min 255 (g + intensity * 10 * factor))))
      (toUint8Clamp (max 0 (min 255 (b - intensity * 15 * (1 - factor))))) p.a)

/-- `applyTechnicolor`. -/
def applyTechnicolor (intensity : ℚ) (img : Image) : Image :=
  Image.mk img.width img.height (fun x y =>
    let p := img.px x y
    let r : ℚ := p.r
    let g : ℚ := p.g
    let b : ℚ := p.b
    let newR := r * (1 + intensity * 0.3) + g * intensity * 0.1
    let newG := g * (1 + intensity * 0.2) - r * intensity * 0.05
    let newB := b * (1 + intensity * 0.4) - g * intensity * 0.1
    Pixel.mk (toUint8Clamp (max 0 (min 255 newR)))
      (toUint8Clamp (max 0 (min 255 newG)))
      (toUint8Clamp (max 0 (min 255 newB))) p.a)

/-- `applyPolaroid`. -/
def applyPolaroid (intensity : ℚ) (img : Image) : Image :=
  Image.mk img.width img.height (fun x y =>
    let p := img.px x y
    Pixel.mk (toUint8Clamp (max 0 (min 255 ((p.r : ℚ) + intensity * 15))))
      (toUint8Clamp (max 0 (min 255 ((p.g : ℚ) + intensity * 10))))
      (toUint8Clamp (max 0 (min 255 ((p.b : ℚ) - intensity * 10)))) p.a)

/-- `applyVignetteEffect` (spatial: each colour channel is multiplied by the
vignette factor with no explicit clamp in the source; the store clamps). -/
def applyVignetteEffect (mo : JsMath) (intensity : ℚ) (img : Image) : Image :=
  Image.mk img.width img.height (fun x y =>
    let p := img.px x y
    let vignette := vignetteFactor mo img.width img.height x y intensity
    Pixel.mk (toUint8Clamp ((p.r : ℚ) * vignette))
      (toUint8Clamp ((p.g : ℚ) * vignette))
      (toUint8Clamp ((p.b : ℚ) * vignette)) p.a)

/-- `applyHDR` (power-law tone mapping through `Math.pow`). -/
def applyHDR (mo : JsMath) (intensity : ℚ) (img : Image) : Image :=
  Image.mk img.width img.height (fun x y =>
    let p := img.px x y
    let factor := 1 + intensity * 0.5
    Pixel.mk (toUint8Clamp (max 0 (min 255 (mo.pow ((p.r : ℚ) / 255) factor * 255))))
      (toUint8Clamp (max 0 (min 255 (mo.pow ((p.g : ℚ) / 255) factor * 255))))
      (toUint8Clamp (max 0 (min 255 (mo.pow ((p.b : ℚ) / 255) factor * 255)))) p.a)

/-- The mean of the eight neighbours of interior pixel `(x, y)` for one
channel, read from the frozen snapshot `img` (the source's `tempData`). -/
def neighborMean (img : Image) (x y : ℕ) (ch : Pixel → ℕ) : ℚ :=
  (((ch (img.px (x - 1) (y - 1)) : ℚ)) + (ch (img.px x (y - 1)) : ℚ) +
      (ch (img.px (x + 1) (y - 1)) : ℚ) + (ch (img.px (x - 1) y) : ℚ) +
      (ch (img.px (x + 1) y) : ℚ) + (ch (img.px (x - 1) (y + 1)) : ℚ) +
      (ch (img.px x (y + 1)) : ℚ) + (ch (img.px (x + 1) (y + 1)) : ℚ)) / 8

/-- The unsharp-mask value written for one channel of interior pixel
`(x, y)`: `center + (center - surrounding) * intensity`, clamped. -/
def clarifyChannel (img : Image) (intensity : ℚ) (x y : ℕ) (ch : Pixel → ℕ) : ℕ :=
  let center : ℚ := ch (img.px x y)
  toUint8Clamp (max 0 (min 255 (center + (center - neighborMean img x y ch) * intensity)))

/-- `applyClarify`: unsharp mask over a frozen copy of the buffer; the loops
run `y` and `x` from 1 to `dimension - 2`, so the 1-pixel border is never
written. -/
def applyClarify (intensity : ℚ) (img : Image) : Image :=
  Image.mk img.width img.height (fun x y =>
    if 1 ≤ x ∧ x + 1 < img.width ∧ 1 ≤ y ∧ y + 1 < img.height then
      Pixel.mk (clarifyChannel img intensity x y Pixel.r)
        (clarifyChannel img intensity x y Pixel.g)
        (clarifyChannel img intensity x y Pixel.b)
        (img.px x y).a
    else img.px x y)

/-- `applyPresetFilters`: the eight gated look transforms in source order. -/
def applyPresetFilters (mo : JsMath) (f : ImageFilters) (img : Image) : Image :=
  let s1 := if f.vintage > 0 then applyVintage (f.vintage / 100) img else img
  let s2 := if f.drama > 0 then applyDrama (f.drama / 100) s1 else s1
  let s3 := if f.lomo > 0 then applyLomo mo (f.lomo / 100) s2 else s2
  let s4 := if f.cross > 0 then applyCrossProcess (f.cross / 100) s3 else s3
  let s5 := if f.pinhole > 0 then applyPinhole mo (f.pinhole / 100) s4 else s4
  let s6 := if f.kodachrome > 0 then applyKodachrome (f.kodachrome / 100) s5 else s5
  let s7 := if f.technicolor > 0 then applyTechnicolor (f.technicolor / 100) s6 else s6
  if f.polaroid > 0 then applyPolaroid (f.polaroid / 100) s7 else s7

/-- `applyAdvancedEffects`: the gated spatial/effect stage (vignette, then
HDR, then clarify). -/
def applyAdvancedEffects (mo : JsMath) (f : ImageFilters) (img : Image) : Image :=
  let s1 := if f.vignette > 0 then applyVignetteEffect mo (f.vignette / 100) img else img
  let s2 := if f.hdr > 0 then applyHDR mo (f.hdr / 100) s1 else s1
  if f.clarify > 0 then applyClarify (f.clarify / 100) s2 else s2

/-- The buffer-level body of `applyAdvancedFilters`: preset stage, then
basic tonal stage, then spatial/effect stage, on one shared buffer. -/
def applyAdvancedFiltersData (mo : JsMath) (f : ImageFilters) (img : Image) : Image :=
  applyAdvancedEffects mo f (applyBasicFilters f (applyPresetFilters mo f img))

/-- The mutable state of one `AdvancedFilterProcessor` instance:
`originalData` (the snapshot taken at construction), `imageData` (the
working buffer) and the canvas contents. -/
structure Processor where
  originalData : Image
  imageData : Image
  canvas : Image

/-- The constructor: `getImageData` copies the canvas into `imageData`, and
`originalData` is a fresh copy of that data. -/
def mkProcessor (canvas : Image) : Processor :=
  Processor.mk canvas canvas canvas

/-- The `applyAdvancedFilters` method: reset the working buffer to
`originalData`, run the three stages, and `putImageData` the result back to
the canvas.  `originalData` is never written. -/
def applyAdvancedFilters (mo : JsMath) (f : ImageFilters) (p : Processor) : Processor :=
  let d := applyAdvancedFiltersData mo f p.originalData
  Processor.mk p.originalData d d

/-! ### The individual tonal sub-steps of `applyBasicFilters`

Each definition below is one gated block of the per-pixel loop body, acting
on the live rational channel triple; `basicPixel` is proved equal to their
composition followed by a single `clampPixel`. -/

/-- The brightness block. -/
def brightnessStep (f : ImageFilters) (t : ℚ × ℚ × ℚ) : ℚ × ℚ × ℚ :=
  if f.brightness ≠ 100 then
    (t.1 * (f.brightness / 100), t.2.1 * (f.brightness / 100),
      t.2.2 * (f.brightness / 100))
  else t

/-- The contrast block. -/
def contrastStep (f : ImageFilters) (t : ℚ × ℚ × ℚ) : ℚ × ℚ × ℚ :=
  if f.contrast ≠ 100 then
    let factor := 259 * (f.contrast + 255) / (255 * (259 - f.contrast))
    (factor * (t.1 - 128) + 128, factor * (t.2.1 - 128) + 128,
      factor * (t.2.2 - 128) + 128)
  else t

/-- The saturation block (its gray is computed from the incoming, already
modified channel values). -/
def saturationStep (f : ImageFilters) (t : ℚ × ℚ × ℚ) : ℚ × ℚ × ℚ :=
  if f.saturation ≠ 100 then
    let gray := 0.299 * t.1 + 0.587 * t.2.1 + 0.114 * t.2.2
    let factor := f.saturation / 100
    (gray + factor * (t.1 - gray), gray + factor * (t.2.1 - gray),
      gray + factor * (t.2.2 - gray))
  else t

/-- The temperature block. -/
def temperatureStep (f : ImageFilters) (t : ℚ × ℚ × ℚ) : ℚ × ℚ × ℚ :=
  if f.temperature ≠ 0 then
    (t.1 + f.temperature / 100 * 30, t.2.1, t.2.2 - f.temperature / 100 * 30)
  else t

/-- The hue block. -/
def hueStep (f : ImageFilters) (t : ℚ × ℚ × ℚ) : ℚ × ℚ × ℚ :=
  if f.hue ≠ 0 then hueShift t f.hue else t

/-- The grayscale block. -/
def grayscaleStep (f : ImageFilters) (t : ℚ × ℚ × ℚ) : ℚ × ℚ × ℚ :=
  if f.grayscale > 0 then
    let gray := 0.299 * t.1 + 0.587 * t.2.1 + 0.114 * t.2.2
    let factor := f.grayscale / 100
    (t.1 * (1 - factor) + gray * factor, t.2.1 * (1 - factor) + gray * factor,
      t.2.2 * (1 - factor) + gray * factor)
  else t

/-- The sepia block. -/
def sepiaStep (f : ImageFilters) (t : ℚ × ℚ × ℚ) : ℚ × ℚ × ℚ :=
  if f.sepia > 0 then
    let factor := f.sepia / 100
    let tr := 0.393 * t.1 + 0.769 * t.2.1 + 0.189 * t.2.2
    let tg := 0.349 * t.1 + 0.686 * t.2.1 + 0.168 * t.2.2
    let tb := 0.272 * t.1 + 0.534 * t.2.1 + 0.131 * t.2.2
    (t.1 * (1 - factor) + tr * factor, t.2.1 * (1 - factor) + tg * factor,
      t.2.2 * (1 - factor) + tb * factor)
  else t

/-- The single clamped store of the three colour channels, at the end of the
per-pixel sequence (the alpha byte is left as it was). -/
def clampPixel (t : ℚ × ℚ × ℚ) (alpha : ℕ) : Pixel :=
  Pixel.mk (toUint8Clamp (max 0 (min 255 t.1)))
    (toUint8Clamp (max 0 (min 255 t.2.1)))
    (toUint8Clamp (max 0 (min 255 t.2.2))) alpha

/-! ### Concrete instances used by the scenario claims and witnesses -/

/-- A concrete `JsMath` instance (any rational functions will do for the
stages whose gates are off; this one is also monotone, nonnegative on
nonnegative inputs, and squares at exponent 2). -/
def mo0 : JsMath := JsMath.mk (fun q => q) (fun q _ => q * q)

/-- `sepia = 100`, every other field neutral. -/
def sepiaOnly : ImageFilters :=
  ⟨0, 100, 100, 100, 100, 0, 0, 0, 0, 0, 0, 0, 0, 0, 0, 0, 0, 0, 0, 0⟩

/-- A 2×2 buffer in which every pixel is (255, 255, 255, 255). -/
def white2 : Image := Image.mk 2 2 (fun _ _ => Pixel.mk 255 255 255 255)

/-- `vintage = 100`, every other field neutral. -/
def vintageOnly : ImageFilters :=
  ⟨0, 0, 100, 100, 100, 0, 0, 0, 0, 0, 100, 0, 0, 0, 0, 0, 0, 0, 0, 0⟩

/-- A 1×1 buffer whose pixel is (200, 100, 40, 255). -/
def img9 : Image := Image.mk 1 1 (fun _ _ => Pixel.mk 200 100 40 255)

/-- A 3×3 buffer with constant pixel (10, 20, 30, 40). -/
def img3 : Image := Image.mk 3 3 (fun _ _ => Pixel.mk 10 20 30 40)

/-! ### Lemmas about the `Uint8ClampedArray` store conversion -/

lemma toUint8Clamp_le255 (q : ℚ) : toUint8Clamp q ≤ 255 := by
  unfold toUint8Clamp
  split_ifs with h1 h2 h3 h4 h5
  · omega
  · omega
  all_goals
    have hf : ⌊q⌋ < 255 := Int.floor_lt.mpr (by exact_mod_cast not_le.mp h2)
    omega

lemma toUint8Clamp_low (q : ℚ) (h : q ≤ 0) : toUint8Clamp q = 0 := by
  unfold toUint8Clamp
  rw [if_pos h]

lemma toUint8Clamp_high (q : ℚ) (h : 255 ≤ q) : toUint8Clamp q = 255 := by
  unfold toUint8Clamp
  rw [if_neg (by linarith), if_pos h]

lemma toUint8Clamp_round_down (q : ℚ) (n : ℕ) (h0 : 0 < q) (hn : n ≤ 254)
    (hl : (n : ℚ) ≤ q) (hu : q < (n : ℚ) + 1 / 2) : toUint8Clamp q = n := by
  have hn254 : (n : ℚ) ≤ 254 := by exact_mod_cast hn
  have hfl : ⌊q⌋ = (n : ℤ) := by
    rw [Int.floor_eq_iff]
    push_cast
    exact ⟨hl, by linarith⟩
  unfold toUint8Clamp
  rw [if_neg (by linarith), if_neg (by linarith), hfl,
    if_pos (by push_cast; linarith)]
  exact Int.toNat_natCast n

lemma toUint8Clamp_round_up (q : ℚ) (n : ℕ) (hn : n + 1 ≤ 255)
    (hl : (n : ℚ) + 1 / 2 < q) (hu : q < (n : ℚ) + 1) : toUint8Clamp q = n + 1 := by
  have hn255 : (n : ℚ) + 1 ≤ 255 := by exact_mod_cast hn
  have hfl : ⌊q⌋ = (n : ℤ) := by
    rw [Int.floor_eq_iff]
    push_cast
    exact ⟨by linarith, by linarith⟩
  unfold toUint8Clamp
  rw [if_neg (by linarith), if_neg (by linarith), hfl,
    if_neg (by push_cast; linarith), if_pos (by push_cast; linarith)]
  omega

lemma toUint8Clamp_natCast (n : ℕ) (h : n ≤ 255) : toUint8Clamp (n : ℚ) = n := by
  rcases Nat.eq_zero_or_pos n with h0 | h0
  · subst h0
    exact toUint8Clamp_low 0 le_rfl
  · rcases eq_or_lt_of_le h with h255 | h255
    · subst h255
      exact toUint8Clamp_high _ (by norm_num)
    · exact toUint8Clamp_round_down _ n (by exact_mod_cast h0) (by omega) le_rfl
        (by linarith)

lemma toUint8Clamp_clampCast (n : ℕ) (h : n ≤ 255) :
    toUint8Clamp (max 0 (min 255 (n : ℚ))) = n := by
  rw [min_eq_right (by exact_mod_cast h), max_eq_right (by positivity)]
  exact toUint8Clamp_natCast n h

/-! ### Concrete store-conversion evaluations used by scenario proofs -/

lemma uc255 : toUint8Clamp 255 = 255 := toUint8Clamp_high _ (by norm_num)

lemma ucSepiaBlue : toUint8Clamp (47787 / 200) = 239 :=
  toUint8Clamp_round_up _ 238 (by norm_num) (by norm_num) (by norm_num)

lemma uc239 : toUint8Clamp 239 = 239 :=
  toUint8Clamp_round_down _ 239 (by norm_num) (by norm_num) (by norm_num) (by norm_num)

lemma uc250 : toUint8Clamp 250 = 250 :=
  toUint8Clamp_round_down _ 250 (by norm_num) (by norm_num) (by norm_num) (by norm_num)

lemma uc108 : toUint8Clamp 108 = 108 :=
  toUint8Clamp_round_down _ 108 (by norm_num) (by norm_num) (by norm_num) (by norm_num)

lemma uc52 : toUint8Clamp 52 = 52 :=
  toUint8Clamp_round_down _ 52 (by norm_num) (by norm_num) (by norm_num) (by norm_num)

lemma ucVintG2 : toUint8Clamp (581 / 5) = 116 :=
  toUint8Clamp_round_down _ 116 (by norm_num) (by norm_num) (by norm_num) (by norm_num)

lemma ucVintB2 : toUint8Clamp (333 / 5) = 67 :=
  toUint8Clamp_round_up _ 66 (by norm_num) (by norm_num) (by norm_num)

lemma uc116 : toUint8Clamp 116 = 116 :=
  toUint8Clamp_round_down _ 116 (by norm_num) (by norm_num) (by norm_num) (by norm_num)

lemma uc67 : toUint8Clamp 67 = 67 :=
  toUint8Clamp_round_down _ 67 (by norm_num) (by norm_num) (by norm_num) (by norm_num)

/-- One full pipeline pass on the all-white 2×2 buffer with `sepia = 100`:
R and G saturate at 255, B becomes 238.935 and is stored as 239. -/
lemma sepiaOnWhite (x y : ℕ) :
    (applyAdvancedFiltersData mo0 sepiaOnly white2).px x y = Pixel.mk 255 255 239 255 := by
  norm_num [applyAdvancedFiltersData, applyPresetFilters, applyAdvancedEffects,
    applyBasicFilters, basicPixel, sepiaOnly, white2, max_def, min_def, uc255, ucSepiaBlue]

/-- One full pipeline pass on the 1×1 buffer (200, 100, 40, 255) with
`vintage = 100`. -/
lemma vintageOnceEval (x y : ℕ) :
    (applyAdvancedFiltersData mo0 vintageOnly img9).px x y = Pixel.mk 250 108 52 255 := by
  norm_num [applyAdvancedFiltersData, applyPresetFilters, applyAdvancedEffects,
    applyBasicFilters, basicPixel, applyVintage, vintageOnly, img9, max_def, min_def,
    uc250, uc108, uc52, uc255]

/-- A second identical pipeline pass compounds the vintage grading. -/
lemma vintageTwiceEval :
    (applyAdvancedFiltersData mo0 vintageOnly
        (applyAdvancedFiltersData mo0 vintageOnly img9)).px 0 0 = Pixel.mk 255 116 67 255 := by
  norm_num [applyAdvancedFiltersData, applyPresetFilters, applyAdvancedEffects,
    applyBasicFilters, basicPixel, applyVintage, vintageOnly, img9, max_def, min_def,
    uc250, uc108, uc52, uc255, ucVintG2, ucVintB2, uc116, uc67]

/-! ### Neutral-value short-circuit lemmas -/

lemma presetFilters_neutral (mo : JsMath) (img : Image) :
    applyPresetFilters mo defaultFilters img = img := by
  simp [applyPresetFilters, defaultFilters]

lemma advancedEffects_neutral (mo : JsMath) (img : Image) :
    applyAdvancedEffects mo defaultFilters img = img := by
  simp [applyAdvancedEffects, defaultFilters]

lemma basicPixel_neutral (p : Pixel) (hr : p.r ≤ 255) (hg : p.g ≤ 255)
    (hb : p.b ≤ 255) : basicPixel defaultFilters p = p := by
  simp only [basicPixel, defaultFilters]
  norm_num
  rw [min_eq_right (show (p.r : ℚ) ≤ 255 by exact_mod_cast hr),
    min_eq_right (show (p.g : ℚ) ≤ 255 by exact_mod_cast hg),
    min_eq_right (show (p.b : ℚ) ≤ 255 by exact_mod_cast hb),
    toUint8Clamp_natCast _ hr, toUint8Clamp_natCast _ hg, toUint8Clamp_natCast _ hb]

/-! ### Alpha-channel preservation lemmas -/

lemma alpha_clarify (i : ℚ) (img : Image) (x y : ℕ) :
    ((applyClarify i img).px x y).a = (img.px x y).a := by
  simp only [applyClarify]
  split <;> rfl

lemma alpha_ite (c : Prop) [Decidable c] (t : Image → Image)
    (h : ∀ img2 x2 y2, ((t img2).px x2 y2).a = (img2.px x2 y2).a)
    (img : Image) (x y : ℕ) :
    ((if c then t img else img).px x y).a = (img.px x y).a := by
  split
  · exact h img x y
  · rfl

lemma alpha_presetFilters (mo : JsMath) (f : ImageFilters) (img : Image) (x y : ℕ) :
    ((applyPresetFilters mo f img).px x y).a = (img.px x y).a := by
  unfold applyPresetFilters
  exact (alpha_ite _ (applyPolaroid _) (fun i2 x2 y2 => rfl) _ x y).trans
    ((alpha_ite _ (applyTechnicolor _) (fun i2 x2 y2 => rfl) _ x y).trans
      ((alpha_ite _ (applyKodachrome _) (fun i2 x2 y2 => rfl) _ x y).trans
        ((alpha_ite _ (applyPinhole mo _) (fun i2 x2 y2 => rfl) _ x y).trans
          ((alpha_ite _ (applyCrossProcess _) (fun i2 x2 y2 => rfl) _ x y).trans
            ((alpha_ite _ (applyLomo mo _) (fun i2 x2 y2 => rfl) _ x y).trans
              ((alpha_ite _ (applyDrama _) (fun i2 x2 y2 => rfl) _ x y).trans
                (alpha_ite _ (applyVintage _) (fun i2 x2 y2 => rfl) _ x y)))))))

lemma alpha_advancedEffects (mo : JsMath) (f : ImageFilters) (img : Image) (x y : ℕ) :
    ((applyAdvancedEffects mo f img).px x y).a = (img.px x y).a := by
  unfold applyAdvancedEffects
  split_ifs <;> (try rw [alpha_clarify]) <;> rfl

/-! ### Claim theorems -/

/-- C1: the claim says `hueShift` with angle 0 returns a chromatic pixel
unchanged, on the same 0–255 scale with no extra rescaling.  The code
violates this: its final line multiplies every reconstructed channel by 255
although value and saturation were already derived from 0–255 magnitudes, so
at the chromatic pixel (255, 0, 0) an angle of 0 yields (65025, 0, 0), not
the input.  This theorem evaluates the transcribed code at that failing
input. -/
theorem hueShift_angle_zero_bug :
    hueShift (255, 0, 0) 0 = (65025, 0, 0) ∧ (65025 : ℚ) ≠ 255 := by
  constructor
  · norm_num [hueShift, jsRem, truncQ, max_def, min_def]
  · norm_num

/-- C2 (counterexample): on the 2×2 all-white image with sepia = 100 and all
else neutral, it is not the case that every output pixel has R = G = B = 255:
the blue channel of pixel (0,0) is 239 (the blue row of the sepia matrix sums
to 0.937 < 1, so blue does not saturate). -/
theorem sepia_white_not_all_255 :
    ¬ (∀ x y : ℕ, x < 2 → y < 2 →
        (applyAdvancedFiltersData mo0 sepiaOnly white2).px x y =
          Pixel.mk 255 255 255 255) := by
  intro hcl
  have h := hcl 0 0 (by norm_num) (by norm_num)
  rw [sepiaOnWhite] at h
  exact absurd h (by decide)

/-- C2 (amended): on the 2×2 all-white image with sepia = 100 and all else
neutral, every output pixel is (255, 255, 239, 255): R and G clamp at white
but B becomes 255 · 0.937 = 238.935, stored as 239. -/
theorem sepia_white_amended : ∀ x y : ℕ,
    (applyAdvancedFiltersData mo0 sepiaOnly white2).px x y =
      Pixel.mk 255 255 239 255 :=
  sepiaOnWhite

/-- C3: with every filter parameter at its neutral value the whole pipeline
is byte-identical to the input, and each neutral field is short-circuited by
its own guard: every tonal sub-step returns its input unchanged at the
neutral value, and the preset and effect stages skip all gated transforms. -/
theorem neutral_pipeline_noop (mo : JsMath) (img : Image) (hv : ValidImage img)
    (x y : ℕ) :
    (applyAdvancedFiltersData mo defaultFilters img).px x y = img.px x y ∧
    (∀ f t, f.brightness = 100 → brightnessStep f t = t) ∧
    (∀ f t, f.contrast = 100 → contrastStep f t = t) ∧
    (∀ f t, f.saturation = 100 → saturationStep f t = t) ∧
    (∀ f t, f.temperature = 0 → temperatureStep f t = t) ∧
    (∀ f t, f.hue = 0 → hueStep f t = t) ∧
    (∀ f t, f.grayscale = 0 → grayscaleStep f t = t) ∧
    (∀ f t, f.sepia = 0 → sepiaStep f t = t) ∧
    (∀ mo2 img2, applyPresetFilters mo2 defaultFilters img2 = img2) ∧
    (∀ mo2 img2, applyAdvancedEffects mo2 defaultFilters img2 = img2) := by
  refine ⟨?_, fun f t h => by simp [brightnessStep, h],
    fun f t h => by simp [contrastStep, h],
    fun f t h => by simp [saturationStep, h],
    fun f t h => by simp [temperatureStep, h],
    fun f t h => by simp [hueStep, h],
    fun f t h => by simp [grayscaleStep, h],
    fun f t h => by simp [sepiaStep, h],
    presetFilters_neutral, advancedEffects_neutral⟩
  rw [applyAdvancedFiltersData, presetFilters_neutral, advancedEffects_neutral]
  exact basicPixel_neutral _ (hv x y).1 (hv x y).2.1 (hv x y).2.2

/-- C3 witness: the neutral pipeline at a concrete valid 3×3 buffer and
pixel. -/
theorem neutral_pipeline_noop_witness :
    (applyAdvancedFiltersData mo0 defaultFilters img3).px 0 0 = img3.px 0 0 :=
  (neutral_pipeline_noop mo0 img3
    (fun _ _ => ⟨by norm_num [img3], by norm_num [img3], by norm_num [img3]⟩) 0 0).1

/-- C4: no transform of the engine ever writes an alpha byte: each of the
twelve stages, and the composed pipeline, leaves the alpha channel of every
pixel equal to the input's. -/
theorem alpha_never_modified :
    (∀ i img x y, ((applyVintage i img).px x y).a = (img.px x y).a) ∧
    (∀ i img x y, ((applyDrama i img).px x y).a = (img.px x y).a) ∧
    (∀ mo i img x y, ((applyLomo mo i img).px x y).a = (img.px x y).a) ∧
    (∀ i img x y, ((applyCrossProcess i img).px x y).a = (img.px x y).a) ∧
    (∀ mo i img x y, ((applyPinhole mo i img).px x y).a = (img.px x y).a) ∧
    (∀ i img x y, ((applyKodachrome i img).px x y).a = (img.px x y).a) ∧
    (∀ i img x y, ((applyTechnicolor i img).px x y).a = (img.px x y).a) ∧
    (∀ i img x y, ((applyPolaroid i img).px x y).a = (img.px x y).a) ∧
    (∀ f img x y, ((applyBasicFilters f img).px x y).a = (img.px x y).a) ∧
    (∀ mo i img x y, ((applyVignetteEffect mo i img).px x y).a = (img.px x y).a) ∧
    (∀ mo i img x y, ((applyHDR mo i img).px x y).a = (img.px x y).a) ∧
    (∀ i img x y, ((applyClarify i img).px x y).a = (img.px x y).a) ∧
    (∀ mo f img x y,
      ((applyAdvancedFiltersData mo f img).px x y).a = (img.px x y).a) := by
  refine ⟨fun i img x y => rfl, fun i img x y => rfl, fun mo i img x y => rfl,
    fun i img x y => rfl, fun mo i img x y => rfl, fun i img x y => rfl,
    fun i img x y => rfl, fun i img x y => rfl, fun f img x y => rfl,
    fun mo i img x y => rfl, fun mo i img x y => rfl, alpha_clarify,
    fun mo f img x y => ?_⟩
  exact (alpha_advancedEffects mo f _ x y).trans (alpha_presetFilters mo f img x y)

/-- C6: the pipeline is exactly the sequential composition, on one shared
buffer, of the gated preset transforms in the order vintage, drama, lomo,
cross, pinhole, kodachrome, technicolor, polaroid, then the basic tonal
stage, then vignette, then hdr, then clarify — for every parameter set. -/
theorem pipeline_stage_order (mo : JsMath) (f : ImageFilters) (img : Image) :
    applyAdvancedFiltersData mo f img =
      (let s1 := if f.vintage > 0 then applyVintage (f.vintage / 100) img else img
       let s2 := if f.drama > 0 then applyDrama (f.drama / 100) s1 else s1
       let s3 := if f.lomo > 0 then applyLomo mo (f.lomo / 100) s2 else s2
       let s4 := if f.cross > 0 then applyCrossProcess (f.cross / 100) s3 else s3
       let s5 := if f.pinhole > 0 then applyPinhole mo (f.pinhole / 100) s4 else s4
       let s6 := if f.kodachrome > 0 then applyKodachrome (f.kodachrome / 100) s5 else s5
       let s7 := if f.technicolor > 0 then applyTechnicolor (f.technicolor / 100) s6 else s6
       let s8 := if f.polaroid > 0 then applyPolaroid (f.polaroid / 100) s7 else s7
       let s9 := applyBasicFilters f s8
       let s10 := if f.vignette > 0 then applyVignetteEffect mo (f.vignette / 100) s9 else s9
       let s11 := if f.hdr > 0 then applyHDR mo (f.hdr / 100) s10 else s10
       if f.clarify > 0 then applyClarify (f.clarify / 100) s11 else s11) := rfl

/-- C7: for every pixel the basic tonal stage is the composition of the
seven sub-steps in the exact order brightness, contrast, saturation,
temperature, hue, grayscale, sepia — each reading the triple produced by
the previous step — with the three colour channels clamped exactly once,
after the whole sequence. -/
theorem basic_tonal_suborder (f : ImageFilters) (img : Image) (x y : ℕ) :
    (applyBasicFilters f img).px x y = basicPixel f (img.px x y) ∧
    basicPixel f (img.px x y) =
      clampPixel
        (sepiaStep f (grayscaleStep f (hueStep f (temperatureStep f
          (saturationStep f (contrastStep f (brightnessStep f
            (((img.px x y).r : ℚ), ((img.px x y).g : ℚ), ((img.px x y).b : ℚ)))))))))
        ((img.px x y).a) :=
  ⟨rfl, rfl⟩

/-- C9: the vintage transform at intensity 100 is not idempotent: on the
1×1 buffer (200, 100, 40, 255), two pipeline runs with vintage = 100 give
pixel (255, 116, 67) while one run gives (250, 108, 52). -/
theorem vintage_not_idempotent :
    (applyAdvancedFiltersData mo0 vintageOnly
        (applyAdvancedFiltersData mo0 vintageOnly img9)).px 0 0 ≠
      (applyAdvancedFiltersData mo0 vintageOnly img9).px 0 0 := by
  rw [vintageTwiceEval, vintageOnceEval]
  decide

/-- C10: on one processor instance, `applyAdvancedFilters` restores the
working buffer from the construction-time snapshot and never writes into it,
so repeated invocations with the same filters equal a single invocation. -/
theorem processor_no_compounding (mo : JsMath) (f : ImageFilters) (p : Processor) :
    applyAdvancedFilters mo f (applyAdvancedFilters mo f p) =
        applyAdvancedFilters mo f p ∧
      (applyAdvancedFilters mo f p).originalData = p.originalData :=
  ⟨rfl, rfl⟩

/-! ### Range-safety lemmas (C5) -/

/-- The squared distance from the image center never exceeds the squared
corner-to-center distance, for any in-bounds pixel coordinate. -/
lemma dist2_le_maxDist2 (w h x y : ℕ) (hx : x < w) (hy : y < h) :
    ((x : ℚ) - w / 2) ^ 2 + ((y : ℚ) - h / 2) ^ 2 ≤
      ((w : ℚ) / 2) ^ 2 + ((h : ℚ) / 2) ^ 2 := by
  have hx2 : x + 1 ≤ w := hx
  have hy2 : y + 1 ≤ h := hy
  have hx1 : (x : ℚ) + 1 ≤ w := by exact_mod_cast hx2
  have hy1 : (y : ℚ) + 1 ≤ h := by exact_mod_cast hy2
  have hx0 : (0 : ℚ) ≤ x := Nat.cast_nonneg x
  have hy0 : (0 : ℚ) ≤ y := Nat.cast_nonneg y
  have h1 : ((x : ℚ) - w / 2) ^ 2 ≤ ((w : ℚ) / 2) ^ 2 :=
    sq_le_sq' (by linarith) (by linarith)
  have h2 : ((y : ℚ) - h / 2) ^ 2 ≤ ((h : ℚ) / 2) ^ 2 :=
    sq_le_sq' (by linarith) (by linarith)
  linarith

/-- For a monotone, nonnegative square-root function the normalized radial
distance lies in [0,1] at every in-bounds pixel. -/
lemma distFrac_bounds (mo : JsMath) (hnn : ∀ q : ℚ, 0 ≤ q → 0 ≤ mo.sqrt q)
    (hmono : ∀ a b : ℚ, 0 ≤ a → a ≤ b → mo.sqrt a ≤ mo.sqrt b)
    (w h x y : ℕ) (hx : x < w) (hy : y < h) :
    0 ≤ distFrac mo w h x y ∧ distFrac mo w h x y ≤ 1 := by
  unfold distFrac
  have hd0 : (0 : ℚ) ≤ ((x : ℚ) - w / 2) ^ 2 + ((y : ℚ) - h / 2) ^ 2 := by positivity
  have ha : 0 ≤ mo.sqrt (((x : ℚ) - w / 2) ^ 2 + ((y : ℚ) - h / 2) ^ 2) := hnn _ hd0
  have hab : mo.sqrt (((x : ℚ) - w / 2) ^ 2 + ((y : ℚ) - h / 2) ^ 2) ≤
      mo.sqrt (((w : ℚ) / 2) ^ 2 + ((h : ℚ) / 2) ^ 2) :=
    hmono _ _ hd0 (dist2_le_maxDist2 w h x y hx hy)
  have hb : 0 ≤ mo.sqrt (((w : ℚ) / 2) ^ 2 + ((h : ℚ) / 2) ^ 2) := le_trans ha hab
  rcases eq_or_lt_of_le hb with hb0 | hb0
  · have ha0 : mo.sqrt (((x : ℚ) - w / 2) ^ 2 + ((y : ℚ) - h / 2) ^ 2) = 0 :=
      le_antisymm (hb0 ▸ hab) ha
    rw [ha0]
    norm_num
  · exact ⟨div_nonneg ha hb0.le, (div_le_one hb0).mpr hab⟩

/-- The clarify stage writes bytes in range whenever the pixel it may pass
through unchanged is in range. -/
lemma inRange_clarify (i : ℚ) (img : Image) (x y : ℕ)
    (hp : InRange (img.px x y)) : InRange ((applyClarify i img).px x y) := by
  simp only [applyClarify]
  split
  · exact ⟨toUint8Clamp_le255 _, toUint8Clamp_le255 _, toUint8Clamp_le255 _⟩
  · exact hp

/-- The full pipeline writes bytes in range at every pixel, for every input
buffer and parameter set. -/
lemma inRange_pipeline (mo : JsMath) (f : ImageFilters) (img : Image) (x y : ℕ) :
    InRange ((applyAdvancedFiltersData mo f img).px x y) := by
  simp only [applyAdvancedFiltersData, applyAdvancedEffects]
  split_ifs <;>
    first
      | exact inRange_clarify _ _ x y
          ⟨toUint8Clamp_le255 _, toUint8Clamp_le255 _, toUint8Clamp_le255 _⟩
      | exact ⟨toUint8Clamp_le255 _, toUint8Clamp_le255 _, toUint8Clamp_le255 _⟩

/-- C5: for every transform stage, pixel coordinate, intensity in the
documented range and in-range input, all written R, G, B values lie in
[0,255]; in particular the squared center distance never exceeds the squared
corner distance, the normalized distance is in [0,1], pinhole's factor
`1 - darkening` is in [0,1] (so its missing upper clamp is harmless), and
vignette's factor is in [0,1] (so its unclamped multiply stays in range). -/
theorem stage_range_safety (mo : JsMath)
    (hnn : ∀ q : ℚ, 0 ≤ q → 0 ≤ mo.sqrt q)
    (hmono : ∀ a b : ℚ, 0 ≤ a → a ≤ b → mo.sqrt a ≤ mo.sqrt b)
    (hpow : ∀ q : ℚ, mo.pow q 2 = q ^ 2)
    (w h x y : ℕ) (hx : x < w) (hy : y < h)
    (i : ℚ) (hi0 : 0 ≤ i) (hi1 : i ≤ 1)
    (f : ImageFilters) (img : Image) (hv : ValidImage img) :
    (((x : ℚ) - w / 2) ^ 2 + ((y : ℚ) - h / 2) ^ 2 ≤
        ((w : ℚ) / 2) ^ 2 + ((h : ℚ) / 2) ^ 2) ∧
    (0 ≤ distFrac mo w h x y ∧ distFrac mo w h x y ≤ 1) ∧
    (0 ≤ 1 - pinholeDarkening mo w h x y i ∧
      1 - pinholeDarkening mo w h x y i ≤ 1) ∧
    (0 ≤ vignetteFactor mo w h x y i ∧ vignetteFactor mo w h x y i ≤ 1) ∧
    (∀ v : ℚ, 0 ≤ v → v ≤ 255 →
      max 0 (v * (1 - pinholeDarkening mo w h x y i)) ≤ 255 ∧
      0 ≤ v * vignetteFactor mo w h x y i ∧
      v * vignetteFactor mo w h x y i ≤ 255) ∧
    InRange ((applyVintage i img).px x y) ∧
    InRange ((applyDrama i img).px x y) ∧
    InRange ((applyLomo mo i img).px x y) ∧
    InRange ((applyCrossProcess i img).px x y) ∧
    InRange ((applyPinhole mo i img).px x y) ∧
    InRange ((applyKodachrome i img).px x y) ∧
    InRange ((applyTechnicolor i img).px x y) ∧
    InRange ((applyPolaroid i img).px x y) ∧
    InRange ((applyBasicFilters f img).px x y) ∧
    InRange ((applyVignetteEffect mo i img).px x y) ∧
    InRange ((applyHDR mo i img).px x y) ∧
    InRange ((applyClarify i img).px x y) ∧
    InRange ((applyAdvancedFiltersData mo f img).px x y) := by
  obtain ⟨hf0, hf1⟩ := distFrac_bounds mo hnn hmono w h x y hx hy
  have hd0 : 0 ≤ pinholeDarkening mo w h x y i := by
    unfold pinholeDarkening
    rw [hpow]
    positivity
  have hd1 : pinholeDarkening mo w h x y i ≤ 1 := by
    unfold pinholeDarkening
    rw [hpow]
    nlinarith
  have hvf0 : 0 ≤ vignetteFactor mo w h x y i := by
    unfold vignetteFactor
    nlinarith
  have hvf1 : vignetteFactor mo w h x y i ≤ 1 := by
    unfold vignetteFactor
    nlinarith
  refine ⟨dist2_le_maxDist2 w h x y hx hy, ⟨hf0, hf1⟩,
    ⟨by linarith, by linarith⟩, ⟨hvf0, hvf1⟩,
    fun v hv0 hv255 => ⟨max_le (by norm_num) (by nlinarith),
      mul_nonneg hv0 hvf0, by nlinarith⟩,
    ⟨toUint8Clamp_le255 _, toUint8Clamp_le255 _, toUint8Clamp_le255 _⟩,
    ⟨toUint8Clamp_le255 _, toUint8Clamp_le255 _, toUint8Clamp_le255 _⟩,
    ⟨toUint8Clamp_le255 _, toUint8Clamp_le255 _, toUint8Clamp_le255 _⟩,
    ⟨toUint8Clamp_le255 _, toUint8Clamp_le255 _, toUint8Clamp_le255 _⟩,
    ⟨toUint8Clamp_le255 _, toUint8Clamp_le255 _, toUint8Clamp_le255 _⟩,
    ⟨toUint8Clamp_le255 _, toUint8Clamp_le255 _, toUint8Clamp_le255 _⟩,
    ⟨toUint8Clamp_le255 _, toUint8Clamp_le255 _, toUint8Clamp_le255 _⟩,
    ⟨toUint8Clamp_le255 _, toUint8Clamp_le255 _, toUint8Clamp_le255 _⟩,
    ⟨toUint8Clamp_le255 _, toUint8Clamp_le255 _, toUint8Clamp_le255 _⟩,
    ⟨toUint8Clamp_le255 _, toUint8Clamp_le255 _, toUint8Clamp_le255 _⟩,
    ⟨toUint8Clamp_le255 _, toUint8Clamp_le255 _, toUint8Clamp_le255 _⟩,
    inRange_clarify i img x y
      ⟨(hv x y).1, (hv x y).2.1, (hv x y).2.2⟩,
    inRange_pipeline mo f img x y⟩

/-- C5 witness: the range-safety theorem applied at the concrete square-root
and power functions of `mo0`, a 2×2 geometry at pixel (0,0), intensity 1/2,
the neutral parameter set and the concrete valid buffer `img3`. -/
theorem stage_range_safety_witness :
    ((((0 : ℕ) : ℚ) - ((2 : ℕ) : ℚ) / 2) ^ 2 +
        (((0 : ℕ) : ℚ) - ((2 : ℕ) : ℚ) / 2) ^ 2 ≤
        (((2 : ℕ) : ℚ) / 2) ^ 2 + (((2 : ℕ) : ℚ) / 2) ^ 2) ∧
    (0 ≤ distFrac mo0 2 2 0 0 ∧ distFrac mo0 2 2 0 0 ≤ 1) ∧
    (0 ≤ 1 - pinholeDarkening mo0 2 2 0 0 (1 / 2) ∧
      1 - pinholeDarkening mo0 2 2 0 0 (1 / 2) ≤ 1) ∧
    (0 ≤ vignetteFactor mo0 2 2 0 0 (1 / 2) ∧
      vignetteFactor mo0 2 2 0 0 (1 / 2) ≤ 1) ∧
    (∀ v : ℚ, 0 ≤ v → v ≤ 255 →
      max 0 (v * (1 - pinholeDarkening mo0 2 2 0 0 (1 / 2))) ≤ 255 ∧
      0 ≤ v * vignetteFactor mo0 2 2 0 0 (1 / 2) ∧
      v * vignetteFactor mo0 2 2 0 0 (1 / 2) ≤ 255) ∧
    InRange ((applyVintage (1 / 2) img3).px 0 0) ∧
    InRange ((applyDrama (1 / 2) img3).px 0 0) ∧
    InRange ((applyLomo mo0 (1 / 2) img3).px 0 0) ∧
    InRange ((applyCrossProcess (1 / 2) img3).px 0 0) ∧
    InRange ((applyPinhole mo0 (1 / 2) img3).px 0 0) ∧
    InRange ((applyKodachrome (1 / 2) img3).px 0 0) ∧
    InRange ((applyTechnicolor (1 / 2) img3).px 0 0) ∧
    InRange ((applyPolaroid (1 / 2) img3).px 0 0) ∧
    InRange ((applyBasicFilters defaultFilters img3).px 0 0) ∧
    InRange ((applyVignetteEffect mo0 (1 / 2) img3).px 0 0) ∧
    InRange ((applyHDR mo0 (1 / 2) img3).px 0 0) ∧
    InRange ((applyClarify (1 / 2) img3).px 0 0) ∧
    InRange ((applyAdvancedFiltersData mo0 defaultFilters img3).px 0 0) :=
  stage_range_safety mo0 (fun q hq => hq) (fun a b h1 h2 => h2)
    (fun q => (pow_two q).symm) 2 2 0 0 (by norm_num) (by norm_num) (1 / 2)
    (by norm_num) (by norm_num) defaultFilters img3
    (fun u v => ⟨by norm_num [img3], by norm_num [img3], by norm_num [img3]⟩)

/-! ### Clarify frame-effect lemmas (C8) -/

/-- At intensity 0 each clarify channel is the clamped store of the original
byte, hence unchanged. -/
lemma clarifyChannel_zero (img : Image) (x y : ℕ) (ch : Pixel → ℕ)
    (h : ch (img.px x y) ≤ 255) : clarifyChannel img 0 x y ch = ch (img.px x y) := by
  simp only [clarifyChannel, mul_zero, add_zero]
  exact toUint8Clamp_clampCast _ h

/-- The clarify value of an interior pixel depends only on the snapshot's
3×3 neighbourhood of that pixel. -/
lemma clarifyChannel_congr (i : ℚ) (img img2 : Image) (x y : ℕ) (ch : Pixel → ℕ)
    (hx1 : 1 ≤ x) (hy1 : 1 ≤ y)
    (hagr : ∀ u v : ℕ, x ≤ u + 1 → u ≤ x + 1 → y ≤ v + 1 → v ≤ y + 1 →
      img2.px u v = img.px u v) :
    clarifyChannel img2 i x y ch = clarifyChannel img i x y ch := by
  have e0 := hagr x y (by omega) (by omega) (by omega) (by omega)
  have e1 := hagr (x - 1) (y - 1) (by omega) (by omega) (by omega) (by omega)
  have e2 := hagr x (y - 1) (by omega) (by omega) (by omega) (by omega)
  have e3 := hagr (x + 1) (y - 1) (by omega) (by omega) (by omega) (by omega)
  have e4 := hagr (x - 1) y (by omega) (by omega) (by omega) (by omega)
  have e5 := hagr (x + 1) y (by omega) (by omega) (by omega) (by omega)
  have e6 := hagr (x - 1) (y + 1) (by omega) (by omega) (by omega) (by omega)
  have e7 := hagr x (y + 1) (by omega) (by omega) (by omega) (by omega)
  have e8 := hagr (x + 1) (y + 1) (by omega) (by omega) (by omega) (by omega)
  unfold clarifyChannel neighborMean
  rw [e0, e1, e2, e3, e4, e5, e6, e7, e8]

/-- C8: the clarify stage leaves every non-interior pixel unchanged for any
intensity; at intensity 0 it is a no-op on every pixel of a valid buffer;
and the output at any pixel is computed from the frozen snapshot only: two
input buffers of the same dimensions that agree on the 3×3 neighbourhood of
`(x, y)` produce the same output there. -/
theorem clarify_frame_effect (i : ℚ) (img : Image) (hv : ValidImage img) (x y : ℕ) :
    (¬ (1 ≤ x ∧ x + 1 < img.width ∧ 1 ≤ y ∧ y + 1 < img.height) →
      (applyClarify i img).px x y = img.px x y) ∧
    ((applyClarify 0 img).px x y = img.px x y) ∧
    (∀ img2 : Image, img2.width = img.width → img2.height = img.height →
      (∀ u v : ℕ, x ≤ u + 1 → u ≤ x + 1 → y ≤ v + 1 → v ≤ y + 1 →
        img2.px u v = img.px u v) →
      (applyClarify i img2).px x y = (applyClarify i img).px x y) := by
  refine ⟨fun hb => ?_, ?_, fun img2 hw hh hagr => ?_⟩
  · simp only [applyClarify]
    rw [if_neg hb]
  · simp only [applyClarify]
    split
    · rw [clarifyChannel_zero img x y Pixel.r (hv x y).1,
        clarifyChannel_zero img x y Pixel.g (hv x y).2.1,
        clarifyChannel_zero img x y Pixel.b (hv x y).2.2]
    · rfl
  · simp only [applyClarify, hw, hh]
    by_cases hc : 1 ≤ x ∧ x + 1 < img.width ∧ 1 ≤ y ∧ y + 1 < img.height
    · rw [if_pos hc, if_pos hc,
        clarifyChannel_congr i img img2 x y Pixel.r hc.1 hc.2.2.1 hagr,
        clarifyChannel_congr i img img2 x y Pixel.g hc.1 hc.2.2.1 hagr,
        clarifyChannel_congr i img img2 x y Pixel.b hc.1 hc.2.2.1 hagr,
        hagr x y (by omega) (by omega) (by omega) (by omega)]
    · rw [if_neg hc, if_neg hc]
      exact hagr x y (by omega) (by omega) (by omega) (by omega)

/-- C8 witness: the clarify frame-effect theorem at intensity 1, the
concrete valid 3×3 buffer `img3` and its interior pixel (1, 1). -/
theorem clarify_frame_effect_witness :
    (¬ (1 ≤ 1 ∧ 1 + 1 < img3.width ∧ 1 ≤ 1 ∧ 1 + 1 < img3.height) →
      (applyClarify 1 img3).px 1 1 = img3.px 1 1) ∧
    ((applyClarify 0 img3).px 1 1 = img3.px 1 1) ∧
    (∀ img2 : Image, img2.width = img3.width → img2.height = img3.height →
      (∀ u v : ℕ, 1 ≤ u + 1 → u ≤ 1 + 1 → 1 ≤ v + 1 → v ≤ 1 + 1 →
        img2.px u v = img3.px u v) →
      (applyClarify 1 img2).px 1 1 = (applyClarify 1 img3).px 1 1) :=
  clarify_frame_effect 1 img3
    (fun u v => ⟨by norm_num [img3], by norm_num [img3], by norm_num [img3]⟩) 1 1
